import Mathlib

/-!
Shallow embedding of the assignee-finder repository (Python) in Lean 4.

The repository fetches issues and pull requests from two forges (Pagure REST,
GitHub GraphQL), filters them per item (missing creation date, URL exclusion
list, closed-at time window), folds paginated pages into per-subject
aggregates, and renders a text report.

Modelling conventions:
* Timestamps (`arrow` datetimes and unix timestamps) are `Nat`; the code only
  compares them, so only the order matters.
* A Python value that can be `None`/empty (falsy) is `Option Nat` /
  `Option String`; `none` models the falsy case of `if not issue[...]`.
* An HTTP response is modelled by its decoded payload together with its
  `status_code` and `reason`; `requests.codes.ok` is `200`, and the
  `Response.ok` predicate of the `requests` library is `status_code < 400`.
* A Python dict whose exact key set matters (the GitHub ticket entries read
  back by the report renderer) is an association list `List (String × String)`;
  dicts with a fixed shape used only positionally are Lean structures.
* `click.echo(..., err=True)` diagnostic lines are modelled as a list of
  `(status_code, reason)` pairs accompanying the result, since the only
  diagnostics in these code paths are the "request failed" messages built from
  exactly those two values.
* The `while next_page:` pagination loops consume the successive pages the
  remote would serve as an explicit `List` of pages, in fetch order; the loop
  stops early exactly when a fetched page yields no next cursor, as in the
  source.
-/

/-- One comment of a Pagure issue: the fields read by
`get_issues_page_data` in `pagure.py` (lines 357-361). -/
structure PagureComment where
  notification : Bool
  comment : String
  date_created : Nat
deriving DecidableEq

/-- One raw Pagure issue as consumed by `get_issues_page_data` in `pagure.py`
and by `get_page_data` in the snapshot `assignee_finder.py`: the fields the
code reads. `date_created` and `closed_at` are `none` when the JSON value is
null/empty (falsy in Python). -/
structure PagureIssue where
  title : String
  full_url : String
  status : String
  date_created : Option Nat
  closed_at : Option Nat
  comments : List PagureComment
deriving DecidableEq

/-- One raw Pagure pull request as consumed by `get_pull_requests_page_data`
in `pagure.py` (lines 155-177). The code never reads `date_created`, but the
raw platform item carries one; it is kept here so that properties about items
with an absent creation date can be stated. -/
structure PagurePR where
  title : String
  status : String
  id : Nat
  project_url_path : String
  date_created : Option Nat
  closed_at : Option Nat
deriving DecidableEq

/-- Entry appended to `data["issues"]` by `get_issues_page_data`
(`pagure.py` lines 370-375): keys `title`, `full_url`, `status`, `assigned`. -/
structure IssueEntry where
  title : String
  full_url : String
  status : String
  assigned : Nat
deriving DecidableEq

/-- Entry appended to `data["pull_requests"]` by
`get_pull_requests_page_data` (`pagure.py` lines 173-177). -/
structure PREntry where
  title : String
  full_url : String
  status : String
deriving DecidableEq

/-- Character-list core of Python's `str.startswith`: the second list is a
prefix of the first. -/
def charsStartWith : List Char → List Char → Bool
  | _, [] => true
  | [], _ :: _ => false
  | c :: cs, p :: ps => c == p && charsStartWith cs ps

/-- Python's exact string-prefix test `s.startswith(pre)`. -/
def str_startswith (s pre : String) : Bool :=
  charsStartWith s.data pre.data

/-- Character-list core of Python's substring test `pat in s`. -/
def charsContain : List Char → List Char → Bool
  | [], pat => pat.isEmpty
  | c :: rest, pat => charsStartWith (c :: rest) pat || charsContain rest pat

/-- Python's substring test `pat in s`, used for `"assigned" in comment["comment"]`. -/
def containsSubstr (s pat : String) : Bool :=
  charsContain s.data pat.data

/-- The exclusion loop shared by every normalizer
(`for exclude in excludes: if url.startswith(exclude): ... break`):
returns the first configured exclusion that is a string prefix of `url`,
scanning in list order and stopping at the first match. -/
def firstMatchingExclude (excludes : List String) (url : String) : Option String :=
  match excludes with
  | [] => none
  | e :: rest => if str_startswith url e then some e else firstMatchingExclude rest url

/-- The comment scan of `get_issues_page_data` (`pagure.py` lines 356-361):
walk the given comment list (the caller passes `comments.reverse`, i.e.
`reversed(issue["comments"])`) and return the `date_created` of the first
notification comment whose text contains the substring "assigned". -/
def findAssignedAt (comments : List PagureComment) : Option Nat :=
  match comments with
  | [] => none
  | c :: rest =>
    if c.notification then
      if containsSubstr c.comment "assigned" then some c.date_created
      else findAssignedAt rest
    else findAssignedAt rest

/-- The entry built for one kept issue by `get_issues_page_data`
(`pagure.py` lines 355-375): `assigned` is the comment-scan result, falling
back to the issue's creation date `d` when the scan finds nothing. -/
def issue_entry_of (issue : PagureIssue) (d : Nat) : IssueEntry :=
  { title := issue.title
    full_url := issue.full_url
    status := issue.status
    assigned := (findAssignedAt issue.comments.reverse).getD d }

/-- Per-issue body of the `for issue in issues:` loop of
`get_issues_page_data` (`pagure.py` lines 332-377): skip when
`date_created` is falsy; skip when the URL matches an exclusion; when the
status is "Closed", keep only if `closed_at` is present and
`since <= closed_at <= till` (the code skips when
`closed_at < since or closed_at > till`); otherwise emit the entry. -/
def issue_page_entry (excludes : List String) (since till : Nat)
    (issue : PagureIssue) : Option IssueEntry :=
  match issue.date_created with
  | none => none
  | some d =>
    if (firstMatchingExclude excludes issue.full_url).isSome then none
    else if issue.status = "Closed" then
      match issue.closed_at with
      | some ts =>
        if ts < since ∨ till < ts then none else some (issue_entry_of issue d)
      | none => none
    else some (issue_entry_of issue d)

/-- Full URL reconstruction for a Pagure pull request (`pagure.py` line 157):
`pagure_url + project.url_path + "/pull-request/" + str(id)`. -/
def pr_full_url (pagure_url : String) (pr : PagurePR) : String :=
  pagure_url ++ pr.project_url_path ++ "/pull-request/" ++ toString pr.id

/-- Per-item body of the `for pull_request in page["requests"]:` loop of
`get_pull_requests_page_data` (`pagure.py` lines 155-179): skip on exclusion
match; when `closed_at` is present (regardless of status), keep only if
`since <= closed_at <= till`; otherwise emit the entry. The item's creation
date and status are never consulted by the filter. -/
def pr_page_entry (pagure_url : String) (excludes : List String)
    (since till : Nat) (pr : PagurePR) : Option PREntry :=
  if (firstMatchingExclude excludes (pr_full_url pagure_url pr)).isSome then none
  else
    match pr.closed_at with
    | some ts =>
      if ts < since ∨ till < ts then none
      else some { title := pr.title, full_url := pr_full_url pagure_url pr, status := pr.status }
    | none => some { title := pr.title, full_url := pr_full_url pagure_url pr, status := pr.status }

/-- One decoded response of a Pagure issues listing endpoint as consumed by
`get_issues_page_data`: HTTP status code plus the issue array (the code picks
`issues_assigned` when present, else `issues`; the selected array is modelled
directly) and the pagination `next` URL (similarly selected). -/
structure IssuesPage where
  status_code : Nat
  issues : List PagureIssue
  next_page : Option String
deriving DecidableEq

/-- Return value of `get_issues_page_data`: in the source, `"total"` is set
unconditionally (line 382), so it is always present. -/
structure IssuesPageData where
  issues : List IssueEntry
  next_page : Option String
  total : Nat
deriving DecidableEq

/-- `get_issues_page_data` of `pagure.py` (lines 292-384). On a non-200
status the function silently returns `{issues: [], next_page: None, total: 0}`
— the source contains no error `click.echo`, so the diagnostics component is
empty on both branches. -/
def get_issues_page_data (excludes : List String) (since till : Nat)
    (page : IssuesPage) : IssuesPageData × List (Nat × String) :=
  if page.status_code = 200 then
    let entries := page.issues.filterMap (issue_page_entry excludes since till)
    ({ issues := entries, next_page := page.next_page, total := entries.length }, [])
  else
    ({ issues := [], next_page := none, total := 0 }, [])

/-- One decoded response of the Pagure pull-requests listing endpoint as
consumed by `get_pull_requests_page_data`. -/
structure PRPage where
  status_code : Nat
  requests : List PagurePR
  next_page : Option String
deriving DecidableEq

/-- Return value of `get_pull_requests_page_data`: in the source, `"total"`
is assigned only inside the success branch (line 181), so on a failed fetch
the returned dict has no `"total"` key — modelled as `none`. -/
structure PRPageData where
  pull_requests : List PREntry
  next_page : Option String
  total : Option Nat
deriving DecidableEq

/-- `get_pull_requests_page_data` of `pagure.py` (lines 118-183). On a
non-200 status it returns `{pull_requests: [], next_page: None}` with no
`"total"` key and emits no diagnostic. -/
def get_pull_requests_page_data (pagure_url : String) (excludes : List String)
    (since till : Nat) (page : PRPage) : PRPageData × List (Nat × String) :=
  if page.status_code = 200 then
    let entries := page.requests.filterMap (pr_page_entry pagure_url excludes since till)
    ({ pull_requests := entries, next_page := page.next_page, total := some entries.length }, [])
  else
    ({ pull_requests := [], next_page := none, total := none }, [])

/-- The `while next_page:` loop shared by `get_pagure_tickets` (lines 281-287)
and `get_pagure_tickets_repos` (lines 228-232): fetch a page, append its
issues, add its total, follow the cursor. The supplied list holds the pages
the remote serves in fetch order; the loop stops at the first page whose
processed data has no next cursor. The result also counts the fetches
performed. -/
def get_pagure_tickets_loop (excludes : List String) (since till : Nat) :
    List IssuesPage → List IssueEntry × Nat × Nat
  | [] => ([], 0, 0)
  | page :: rest =>
    let pd := (get_issues_page_data excludes since till page).1
    match pd.next_page with
    | none => (pd.issues, pd.total, 1)
    | some _ =>
      let r := get_pagure_tickets_loop excludes since till rest
      (pd.issues ++ r.1, pd.total + r.2.1, r.2.2 + 1)

/-- The `while next_page:` loop of `get_pagure_pull_requests` (lines 107-111)
and `get_pagure_pull_requests_repos` (lines 53-57). Reading
`page_data["total"]` raises `KeyError` when the page fetch failed (the key is
absent), modelled as `none` for the whole loop. -/
def get_pagure_pull_requests_loop (pagure_url : String) (excludes : List String)
    (since till : Nat) : List PRPage → Option (List PREntry × Nat × Nat)
  | [] => some ([], 0, 0)
  | page :: rest =>
    let pd := (get_pull_requests_page_data pagure_url excludes since till page).1
    match pd.total with
    | none => none
    | some t =>
      match pd.next_page with
      | none => some (pd.pull_requests, t, 1)
      | some _ =>
        match get_pagure_pull_requests_loop pagure_url excludes since till rest with
        | none => none
        | some r => some (pd.pull_requests ++ r.1, t + r.2.1, r.2.2 + 1)

/-- Per-user aggregate produced by the Pagure ticket adapters:
`{"issues": [...], "total": n}`. -/
structure IssuesAggregate where
  issues : List IssueEntry
  total : Nat
deriving DecidableEq

/-- `get_pagure_tickets` of `pagure.py` (lines 239-289): for each user, drain
that user's paginated issue listing and record the aggregate under the user.
Each user is paired with the pages the remote serves for their query URL. -/
def get_pagure_tickets (excludes : List String) (since till : Nat)
    (users : List (String × List IssuesPage)) : List (String × IssuesAggregate) :=
  users.map fun u =>
    let r := get_pagure_tickets_loop excludes since till u.2
    (u.1, { issues := r.1, total := r.2.1 })

/-- `get_pagure_tickets_repos` of `pagure.py` (lines 186-236): the same
drain-and-aggregate loop as `get_pagure_tickets`, run per repository (only the
initial query URL differs in the source). -/
def get_pagure_tickets_repos (excludes : List String) (since till : Nat)
    (repos : List (String × List IssuesPage)) : List (String × IssuesAggregate) :=
  repos.map fun u =>
    let r := get_pagure_tickets_loop excludes since till u.2
    (u.1, { issues := r.1, total := r.2.1 })

/-- Decoded GraphQL node of the open-tickets search query in
`get_open_github_tickets` (`github.py` lines 210-225): the query requests
only `title`, `url`, `state`. -/
structure GHOpenNode where
  title : String
  url : String
  state : String
deriving DecidableEq

/-- Decoded GraphQL node of the closed-tickets search query in
`get_closed_github_tickets` (`github.py` lines 291-307): the query also
requests `closedAt`. -/
structure GHClosedNode where
  title : String
  url : String
  state : String
  closedAt : Nat
deriving DecidableEq

/-- One GraphQL HTTP response: status, reason (read by the error echo) and
the decoded `edges[].node` list. -/
structure GHResponse (α : Type) where
  status_code : Nat
  reason : String
  edges : List α
deriving DecidableEq

/-- The `requests` library's `Response.ok` predicate: status code below 400. -/
def respOk (status_code : Nat) : Bool :=
  status_code < 400

/-- The entry dict built for each kept GitHub node
(`github.py` lines 254-258 and 341-345): keys `title`, `full_url`, `status`,
in that insertion order, and no other key. -/
def github_entry (title url state : String) : List (String × String) :=
  [("title", title), ("full_url", url), ("status", state)]

/-- Per-node body of the edge loop of `get_open_github_tickets`
(`github.py` lines 243-260): skip on exclusion match, else emit the entry.
No date field is consulted. -/
def gh_open_entry (excludes : List String) (n : GHOpenNode) :
    Option (List (String × String)) :=
  if (firstMatchingExclude excludes n.url).isSome then none
  else some (github_entry n.title n.url n.state)

/-- Per-node body of the edge loop of `get_closed_github_tickets`
(`github.py` lines 325-347): skip when `closed_at > till` (the code checks
only the upper bound; the lower bound is delegated to the remote search
query `closed:>since`), then skip on exclusion match, else emit the entry. -/
def gh_closed_entry (excludes : List String) (till : Nat) (n : GHClosedNode) :
    Option (List (String × String)) :=
  if till < n.closedAt then none
  else if (firstMatchingExclude excludes n.url).isSome then none
  else some (github_entry n.title n.url n.state)

/-- `get_open_github_tickets` of `github.py` (lines 189-262): on a failed
response, echo one diagnostic built from the status code and reason and
return `[]`; on success, filter and collect the edges. -/
def get_open_github_tickets (excludes : List String)
    (resp : GHResponse GHOpenNode) :
    List (List (String × String)) × List (Nat × String) :=
  if respOk resp.status_code then
    (resp.edges.filterMap (gh_open_entry excludes), [])
  else
    ([], [(resp.status_code, resp.reason)])

/-- `get_closed_github_tickets` of `github.py` (lines 265-349): same failure
policy, with the `closedAt`-vs-`till` filter on success. -/
def get_closed_github_tickets (excludes : List String) (till : Nat)
    (resp : GHResponse GHClosedNode) :
    List (List (String × String)) × List (Nat × String) :=
  if respOk resp.status_code then
    (resp.edges.filterMap (gh_closed_entry excludes till), [])
  else
    ([], [(resp.status_code, resp.reason)])

/-- Per-user aggregate of the GitHub ticket adapter:
`{"issues": [...], "total": n}` where entries are the dict-shaped records. -/
structure GHUserData where
  issues : List (List (String × String))
  total : Nat
deriving DecidableEq

/-- Per-user body of `get_github_tickets` (`github.py` lines 178-185):
concatenate the open and closed passes and sum their lengths. -/
def get_github_tickets_user (excludes : List String) (till : Nat)
    (openResp : GHResponse GHOpenNode) (closedResp : GHResponse GHClosedNode) :
    GHUserData :=
  let open_issues := (get_open_github_tickets excludes openResp).1
  let closed_issues := (get_closed_github_tickets excludes till closedResp).1
  { issues := open_issues ++ closed_issues
    total := open_issues.length + closed_issues.length }

/-- `get_github_tickets` of `github.py` (lines 146-187): map the per-user
fetch over the user list; each user is paired with the responses the remote
serves for the open and closed queries. -/
def get_github_tickets (excludes : List String) (till : Nat)
    (users : List (String × GHResponse GHOpenNode × GHResponse GHClosedNode)) :
    List (String × GHUserData) :=
  users.map fun u => (u.1, get_github_tickets_user excludes till u.2.1 u.2.2)

/-- Dict key lookup (`issue["key"]`) on the association-list model of an
entry dict; `none` models a raised `KeyError`. -/
def lookupKey (d : List (String × String)) (k : String) : Option String :=
  (d.find? fun p => p.1 == k).map fun p => p.2

/-- The GitHub line of the `get_tickets` report renderer (`main.py` lines
184-185): it reads `issue["title"]`, `issue["full_url"]`, `issue["status"]`
and `issue["assigned"]` from each GitHub record; `none` models the uncaught
`KeyError` when one of those keys is absent. -/
def get_tickets_github_line (issue : List (String × String)) :
    Option (String × String × String × String) :=
  match lookupKey issue "title", lookupKey issue "full_url",
        lookupKey issue "status", lookupKey issue "assigned" with
  | some t, some u, some s, some a => some (t, u, s, a)
  | _, _, _, _ => none

/-- Entry built by `get_page_data` in the snapshot `assignee_finder.py`
(lines 244-248): keys `title`, `full_url`, `status` only. -/
structure SnapshotEntry where
  title : String
  full_url : String
  status : String
deriving DecidableEq

/-- Return value of the snapshot `get_page_data`: `"total"` is assigned only
inside the success branch (line 252), so it is absent on a failed fetch. -/
structure SnapshotPageData where
  issues : List SnapshotEntry
  next_page : Option String
  total : Option Nat
deriving DecidableEq

/-- Per-issue body of the loop in the snapshot `get_page_data`
(`assignee_finder.py` lines 234-250): skip when `date_created` is falsy;
when `closed_at` is present (regardless of status), keep only if
`since <= closed_at <= till`; no exclusion-list check exists in this file. -/
def snapshot_page_entry (since till : Nat) (issue : PagureIssue) :
    Option SnapshotEntry :=
  match issue.date_created with
  | none => none
  | some _ =>
    match issue.closed_at with
    | some ts =>
      if ts < since ∨ till < ts then none
      else some { title := issue.title, full_url := issue.full_url, status := issue.status }
    | none => some { title := issue.title, full_url := issue.full_url, status := issue.status }

/-- `get_page_data` of the snapshot `assignee_finder.py` (lines 195-254). -/
def snapshot_get_page_data (since till : Nat) (page : IssuesPage) :
    SnapshotPageData :=
  if page.status_code = 200 then
    let entries := page.issues.filterMap (snapshot_page_entry since till)
    { issues := entries, next_page := page.next_page, total := some entries.length }
  else
    { issues := [], next_page := none, total := none }

/-- The `while next_page:` loop of the snapshot `get_pagure_tickets`
(`assignee_finder.py` lines 113-117): reading `page_data["total"]` raises
`KeyError` when the page fetch failed, modelled as `none`. -/
def snapshot_get_pagure_tickets_loop (since till : Nat) :
    List IssuesPage → Option (List SnapshotEntry × Nat × Nat)
  | [] => some ([], 0, 0)
  | page :: rest =>
    let pd := snapshot_get_page_data since till page
    match pd.total with
    | none => none
    | some t =>
      match pd.next_page with
      | none => some (pd.issues, t, 1)
      | some _ =>
        match snapshot_get_pagure_tickets_loop since till rest with
        | none => none
        | some r => some (pd.issues ++ r.1, t + r.2.1, r.2.2 + 1)

/-- Decoded GraphQL node of the snapshot's GitHub query
(`assignee_finder.py` lines 148-162): only `title` and `url` are requested. -/
structure SnapGHNode where
  title : String
  url : String
deriving DecidableEq

/-- Per-user data built by the snapshot `get_github_tickets`
(lines 179-190): entries are `(title, full_url)` pairs, no filtering. -/
structure SnapGHUserData where
  issues : List (String × String)
  total : Nat
deriving DecidableEq

/-- The per-user processing of a successful response in the snapshot
`get_github_tickets` (`assignee_finder.py` lines 179-190). -/
def snapshot_user_data (resp : GHResponse SnapGHNode) : SnapGHUserData :=
  let issues := resp.edges.map fun n => (n.title, n.url)
  { issues := issues, total := issues.length }

/-- `get_github_tickets` of the snapshot `assignee_finder.py`
(lines 124-192): iterate the users in order; on the first failed response,
echo one diagnostic and `return output` immediately, dropping the failing
user and every user after it. Each user is paired with the response the
remote serves for their query. -/
def snapshot_get_github_tickets :
    List (String × GHResponse SnapGHNode) →
    List (String × SnapGHUserData) × List (Nat × String)
  | [] => ([], [])
  | (user, resp) :: rest =>
    if respOk resp.status_code then
      let r := snapshot_get_github_tickets rest
      ((user, snapshot_user_data resp) :: r.1, r.2)
    else
      ([], [(resp.status_code, resp.reason)])

/-- Per-user dict lookup `github_users_tickets[github_user]` performed by the
snapshot report loop (`assignee_finder.py` line 63); `none` models the raised
`KeyError`. -/
def lookupUser (d : List (String × SnapGHUserData)) (u : String) :
    Option SnapGHUserData :=
  (d.find? fun p => p.1 == u).map fun p => p.2

/-- A finite fetch sequence in which every page before the last decodes
successfully and reports a next cursor, and the last page decodes
successfully and reports no next cursor. -/
def cursor_chain : List IssuesPage → Bool
  | [] => false
  | page :: [] => page.status_code == 200 && page.next_page.isNone
  | page :: next :: rest =>
    page.status_code == 200 && page.next_page.isSome && cursor_chain (next :: rest)

/-- The normalized item sequence one page contributes to the aggregate. -/
def issues_page_entries (excludes : List String) (since till : Nat)
    (page : IssuesPage) : List IssueEntry :=
  ((get_issues_page_data excludes since till page).1).issues

theorem issues_page_total_eq (excludes : List String) (since till : Nat)
    (page : IssuesPage) :
    ((get_issues_page_data excludes since till page).1).total =
    ((get_issues_page_data excludes since till page).1).issues.length := by
  by_cases h : page.status_code = 200 <;> simp [get_issues_page_data, h]

theorem issues_loop_total (excludes : List String) (since till : Nat)
    (pages : List IssuesPage) :
    (get_pagure_tickets_loop excludes since till pages).2.1 =
    (get_pagure_tickets_loop excludes since till pages).1.length := by
  induction pages with
  | nil => rfl
  | cons page rest ih =>
    simp only [get_pagure_tickets_loop]
    split
    · exact issues_page_total_eq excludes since till page
    · simp [issues_page_total_eq excludes since till page, ih]

theorem pr_loop_total (pagure_url : String) (excludes : List String)
    (since till : Nat) (pages : List PRPage)
    (result : List PREntry × Nat × Nat)
    (h : get_pagure_pull_requests_loop pagure_url excludes since till pages = some result) :
    result.2.1 = result.1.length := by
  induction pages generalizing result with
  | nil =>
    simp only [get_pagure_pull_requests_loop, Option.some.injEq] at h
    subst h
    rfl
  | cons page rest ih =>
    simp only [get_pagure_pull_requests_loop] at h
    by_cases hok : page.status_code = 200
    · simp only [get_pull_requests_page_data, if_pos hok] at h
      split at h
      · cases h
        rfl
      · split at h
        · cases h
        · rename_i r hr
          cases h
          have hr2 := ih r hr
          simp [List.length_append, hr2]
    · simp [get_pull_requests_page_data, if_neg hok] at h

/-- Concrete fixture: an open Pagure issue with a creation date. -/
def wIssueOpen : PagureIssue :=
  { title := "Open issue", full_url := "https://pagure.io/proj/issue/1",
    status := "Open", date_created := some 3, closed_at := none, comments := [] }

/-- Concrete fixture: a closed Pagure issue with closing timestamp 7. -/
def wIssueClosed : PagureIssue :=
  { title := "Closed issue", full_url := "https://pagure.io/proj/issue/2",
    status := "Closed", date_created := some 3, closed_at := some 7, comments := [] }

/-- Concrete fixture: an open Pagure issue whose creation date is absent. -/
def wIssueNoDate : PagureIssue :=
  { title := "No date", full_url := "https://pagure.io/proj/issue/3",
    status := "Open", date_created := none, closed_at := none, comments := [] }

/-- Concrete fixture: an open Pagure issue with an assignment notification
comment dated 42. -/
def wIssueAssigned : PagureIssue :=
  { title := "Assigned issue", full_url := "https://pagure.io/proj/issue/4",
    status := "Open", date_created := some 5, closed_at := none,
    comments := [{ notification := true, comment := "Issue assigned to someone", date_created := 42 }] }

/-- Concrete fixture: an open Pagure pull request that nonetheless carries a
closed timestamp (50). -/
def wPROpenStamped : PagurePR :=
  { title := "Open PR", status := "Open", id := 1, project_url_path := "proj",
    date_created := some 3, closed_at := some 50 }

/-- Concrete fixture: a closed Pagure pull request with no closed timestamp. -/
def wPRClosedNoStamp : PagurePR :=
  { title := "Closed PR", status := "Closed", id := 2, project_url_path := "proj",
    date_created := some 3, closed_at := none }

/-- Concrete fixture: an open Pagure pull request whose creation date is
absent. -/
def wPRNoDate : PagurePR :=
  { title := "PR without creation date", status := "Open", id := 3,
    project_url_path := "proj", date_created := none, closed_at := none }

/-- Concrete fixture: a GitHub open-query node. -/
def wOpenNode : GHOpenNode :=
  { title := "GH issue", url := "https://github.com/o/r/issues/1", state := "OPEN" }

/-- Concrete fixture: a GitHub closed-query node closed at 7. -/
def wClosedNode : GHClosedNode :=
  { title := "GH closed issue", url := "https://github.com/o/r/issues/2",
    state := "CLOSED", closedAt := 7 }

/-- Concrete fixture: a successful first issues page with two items and a
next cursor. -/
def wPage1 : IssuesPage :=
  { status_code := 200, issues := [wIssueOpen, wIssueClosed],
    next_page := some "https://pagure.io/api/0/page2" }

/-- Concrete fixture: a successful terminal issues page with one item. -/
def wPage2 : IssuesPage :=
  { status_code := 200, issues := [wIssueAssigned], next_page := none }

/-- Concrete fixture: an issues page whose fetch failed with HTTP 500. -/
def wPageFail : IssuesPage :=
  { status_code := 500, issues := [wIssueOpen],
    next_page := some "https://pagure.io/api/0/page2" }

/-- Concrete fixture: a successful terminal pull-requests page holding the
closed pull request without a closed timestamp. -/
def wPRPage : PRPage :=
  { status_code := 200, requests := [wPRClosedNoStamp], next_page := none }

/-- Concrete fixture: a pull-requests page whose fetch failed with HTTP 500. -/
def wPRPageFail : PRPage :=
  { status_code := 500, requests := [], next_page := none }

/-- C3: for every subject and every query shape — the Pagure assigned-tickets
adapter, the Pagure repository-scoped tickets adapter, the Pagure
pull-request pagination loop (whenever it returns an aggregate at all), and
the GitHub tickets adapter with its open-plus-closed concatenation — the
aggregate's total equals the number of its records. -/
theorem C3_total_matches_length :
    (∀ (excludes : List String) (since till : Nat)
        (users : List (String × List IssuesPage))
        (entry : String × IssuesAggregate),
        entry ∈ get_pagure_tickets excludes since till users →
        entry.2.total = entry.2.issues.length)
  ∧ (∀ (excludes : List String) (since till : Nat)
        (repos : List (String × List IssuesPage))
        (entry : String × IssuesAggregate),
        entry ∈ get_pagure_tickets_repos excludes since till repos →
        entry.2.total = entry.2.issues.length)
  ∧ (∀ (pagure_url : String) (excludes : List String) (since till : Nat)
        (pages : List PRPage) (result : List PREntry × Nat × Nat),
        get_pagure_pull_requests_loop pagure_url excludes since till pages = some result →
        result.2.1 = result.1.length)
  ∧ (∀ (excludes : List String) (till : Nat)
        (users : List (String × GHResponse GHOpenNode × GHResponse GHClosedNode))
        (entry : String × GHUserData),
        entry ∈ get_github_tickets excludes till users →
        entry.2.total = entry.2.issues.length) := by
  refine ⟨?_, ?_, ?_, ?_⟩
  · intro excludes since till users entry hmem
    rcases List.mem_map.1 hmem with ⟨p, _, hp⟩
    subst hp
    simpa using issues_loop_total excludes since till p.2
  · intro excludes since till repos entry hmem
    rcases List.mem_map.1 hmem with ⟨p, _, hp⟩
    subst hp
    simpa using issues_loop_total excludes since till p.2
  · intro pagure_url excludes since till pages result h
    exact pr_loop_total pagure_url excludes since till pages result h
  · intro excludes till users entry hmem
    rcases List.mem_map.1 hmem with ⟨p, _, hp⟩
    subst hp
    simp [get_github_tickets_user]

/-- Witness for C3: the pull-request loop conjunct applied to one concrete
successful terminal page carrying the closed-without-timestamp pull request,
whose aggregate is one record with total 1. -/
theorem C3_total_matches_length_witness :
    (1 : Nat) = [({ title := "Closed PR",
                    full_url := "https://pagure.io/proj/pull-request/2",
                    status := "Closed" } : PREntry)].length :=
  C3_total_matches_length.2.2.1 "https://pagure.io/" [] 0 100 [wPRPage]
    ([{ title := "Closed PR", full_url := "https://pagure.io/proj/pull-request/2",
        status := "Closed" }], 1, 1) rfl

/-- C5: over any finite fetch sequence in which every page before the last
reports a next cursor and the last reports none (all decoding successfully),
the pagination loop performs exactly one fetch per page, terminates, and
returns the concatenation of the pages' normalized item sequences in fetch
order, with the total equal to the number of records. -/
theorem C5_pagination_drains (excludes : List String) (since till : Nat)
    (pages : List IssuesPage) (h : cursor_chain pages = true) :
    get_pagure_tickets_loop excludes since till pages =
      ((pages.map (issues_page_entries excludes since till)).flatten,
       (pages.map (issues_page_entries excludes since till)).flatten.length,
       pages.length) := by
  induction pages with
  | nil => simp [cursor_chain] at h
  | cons page rest ih =>
    cases rest with
    | nil =>
      simp only [cursor_chain, Bool.and_eq_true, beq_iff_eq,
        Option.isNone_iff_eq_none] at h
      obtain ⟨hok, hnone⟩ := h
      simp [get_pagure_tickets_loop, get_issues_page_data, hok, hnone,
        issues_page_entries]
    | cons next rest2 =>
      simp only [cursor_chain, Bool.and_eq_true, beq_iff_eq] at h
      obtain ⟨⟨hok, hsome⟩, hchain⟩ := h
      obtain ⟨u, hu⟩ := Option.isSome_iff_exists.1 hsome
      have ihr := ih hchain
      have hpd : ((get_issues_page_data excludes since till page).1).next_page = some u := by
        simp [get_issues_page_data, hok, hu]
      conv_lhs => rw [get_pagure_tickets_loop]
      simp only [hpd]
      rw [ihr]
      simp [get_issues_page_data, hok, issues_page_entries]

/-- Witness for C5 (Scenario A of the spec): a first page with two items and
a next cursor followed by a terminal page with one item yields three records,
total 3, after exactly two fetches. -/
theorem C5_pagination_drains_witness :
    get_pagure_tickets_loop [] 0 100 [wPage1, wPage2] =
      ([{ title := "Open issue", full_url := "https://pagure.io/proj/issue/1",
          status := "Open", assigned := 3 },
        { title := "Closed issue", full_url := "https://pagure.io/proj/issue/2",
          status := "Closed", assigned := 3 },
        { title := "Assigned issue", full_url := "https://pagure.io/proj/issue/4",
          status := "Open", assigned := 42 }], 3, 2) := by
  have h := C5_pagination_drains [] 0 100 [wPage1, wPage2] (by rfl)
  exact h.trans (by decide)

/-- Counterexample to C1 as stated: the claim demands that an item marked
closed with no closed timestamp be skipped uniformly, including on Pagure
pull-request pages; but `get_pull_requests_page_data` keys its window check
on the presence of `closed_at`, not on the status, so a pull request with
status "Closed" and no closed timestamp is included in the page's records. -/
theorem C1_counterexample :
    wPRClosedNoStamp.status = "Closed" ∧ wPRClosedNoStamp.closed_at = none
    ∧ ((get_pull_requests_page_data "https://pagure.io/" [] 0 100 wPRPage).1).pull_requests =
        [{ title := "Closed PR", full_url := "https://pagure.io/proj/pull-request/2",
           status := "Closed" }] :=
  ⟨rfl, rfl, by decide⟩

/-- C1 amended: time-window filtering per path. On Pagure issue pages a
closed item with a closed timestamp is kept iff `since <= closed_at <= till`
and a closed item with no timestamp is skipped; on Pagure pull-request pages
the window test applies exactly when `closed_at` is present (a pull request
with a timestamp is kept iff it lies in the window, regardless of status);
in the GitHub closed-ticket query only the upper bound `closed_at <= till`
is checked in code (the lower bound is delegated to the remote search
query). All three statements assume the item is not exclusion-filtered. -/
theorem C1_time_window :
    (∀ (excludes : List String) (since till : Nat) (issue : PagureIssue),
        issue.status = "Closed" →
        issue.date_created.isSome = true →
        firstMatchingExclude excludes issue.full_url = none →
        ((issue_page_entry excludes since till issue).isSome = true ↔
          ∃ ts, issue.closed_at = some ts ∧ since ≤ ts ∧ ts ≤ till))
  ∧ (∀ (pagure_url : String) (excludes : List String) (since till : Nat)
        (pr : PagurePR) (ts : Nat),
        pr.closed_at = some ts →
        firstMatchingExclude excludes (pr_full_url pagure_url pr) = none →
        ((pr_page_entry pagure_url excludes since till pr).isSome = true ↔
          (since ≤ ts ∧ ts ≤ till)))
  ∧ (∀ (excludes : List String) (till : Nat) (n : GHClosedNode),
        firstMatchingExclude excludes n.url = none →
        ((gh_closed_entry excludes till n).isSome = true ↔ n.closedAt ≤ till)) := by
  refine ⟨?_, ?_, ?_⟩
  · intro excludes since till issue hst hd hex
    obtain ⟨d, hdc⟩ := Option.isSome_iff_exists.1 hd
    cases hca : issue.closed_at with
    | none => simp [issue_page_entry, hdc, hex, hst, hca]
    | some ts =>
      by_cases hcond : ts < since ∨ till < ts <;>
        simp [issue_page_entry, hdc, hex, hst, hca, hcond] <;> omega
  · intro pagure_url excludes since till pr ts hca hex
    by_cases hcond : ts < since ∨ till < ts <;>
      simp [pr_page_entry, hex, hca, hcond] <;> omega
  · intro excludes till n hex
    by_cases hcond : till < n.closedAt <;>
      simp [gh_closed_entry, hex, hcond] <;> omega

/-- Witness for C1 amended: the closed issue with timestamp 7 lies inside
the window [0, 100] and is kept. -/
theorem C1_time_window_witness :
    (issue_page_entry [] 0 100 wIssueClosed).isSome = true :=
  (C1_time_window.1 [] 0 100 wIssueClosed rfl rfl rfl).mpr
    ⟨7, rfl, by decide, by decide⟩

/-- Counterexample to C4 as stated: the claim demands exactly one diagnostic
line on every non-success response, but the Pagure issues page fetcher emits
none at all — on an HTTP 500 it silently returns the empty page data. -/
theorem C4_counterexample :
    wPageFail.status_code = 500
    ∧ get_issues_page_data [] 0 100 wPageFail =
        ({ issues := [], next_page := none, total := 0 }, [])
    ∧ ((get_issues_page_data [] 0 100 wPageFail).2).length ≠ 1 :=
  ⟨rfl, by decide, by decide⟩

/-- C4 amended: failure policy per fetcher. The GitHub fetchers emit exactly
one diagnostic carrying the status code and reason and return an empty list
without raising. The Pagure issues page fetcher returns
`{issues: [], next_page: None, total: 0}` with NO diagnostic, so a failed
fetch yields the empty aggregate `([], 0)` for that subject after one fetch,
with zero diagnostic lines. The Pagure pull-request page fetcher returns a
result whose `total` key is absent, which makes the aggregation loop raise a
key-lookup error instead of producing an aggregate. -/
theorem C4_failure_policy :
    (∀ (excludes : List String) (resp : GHResponse GHOpenNode),
        respOk resp.status_code = false →
        get_open_github_tickets excludes resp = ([], [(resp.status_code, resp.reason)]))
  ∧ (∀ (excludes : List String) (till : Nat) (resp : GHResponse GHClosedNode),
        respOk resp.status_code = false →
        get_closed_github_tickets excludes till resp = ([], [(resp.status_code, resp.reason)]))
  ∧ (∀ (excludes : List String) (since till : Nat) (page : IssuesPage),
        page.status_code ≠ 200 →
        get_issues_page_data excludes since till page =
          ({ issues := [], next_page := none, total := 0 }, []))
  ∧ (∀ (excludes : List String) (since till : Nat) (page : IssuesPage)
        (rest : List IssuesPage),
        page.status_code ≠ 200 →
        get_pagure_tickets_loop excludes since till (page :: rest) = ([], 0, 1))
  ∧ (∀ (pagure_url : String) (excludes : List String) (since till : Nat)
        (page : PRPage),
        page.status_code ≠ 200 →
        get_pull_requests_page_data pagure_url excludes since till page =
          ({ pull_requests := [], next_page := none, total := none }, []))
  ∧ (∀ (pagure_url : String) (excludes : List String) (since till : Nat)
        (page : PRPage) (rest : List PRPage),
        page.status_code ≠ 200 →
        get_pagure_pull_requests_loop pagure_url excludes since till (page :: rest) = none) := by
  refine ⟨?_, ?_, ?_, ?_, ?_, ?_⟩
  · intro excludes resp h
    simp [get_open_github_tickets, h]
  · intro excludes till resp h
    simp [get_closed_github_tickets, h]
  · intro excludes since till page h
    simp [get_issues_page_data, h]
  · intro excludes since till page rest h
    simp [get_pagure_tickets_loop, get_issues_page_data, h]
  · intro pagure_url excludes since till page h
    simp [get_pull_requests_page_data, h]
  · intro pagure_url excludes since till page rest h
    simp [get_pagure_pull_requests_loop, get_pull_requests_page_data, h]

/-- Witness for C4 amended: an HTTP 500 on the GitHub open-tickets query
yields the empty list plus exactly one diagnostic with status 500. -/
theorem C4_failure_policy_witness :
    get_open_github_tickets []
      { status_code := 500, reason := "Internal Server Error", edges := [wOpenNode] } =
      ([], [(500, "Internal Server Error")]) :=
  C4_failure_policy.1 []
    { status_code := 500, reason := "Internal Server Error", edges := [wOpenNode] }
    (by decide)

/-- Counterexample to C6 as stated: the claim says an open item is never
excluded by time-window filtering regardless of whether it carries a closed
timestamp; but the Pagure pull-request path keys its window check on the
presence of `closed_at`, not on the status, so an open pull request carrying
a closed timestamp (50) outside the window [0, 10] is excluded. -/
theorem C6_counterexample :
    wPROpenStamped.status = "Open"
    ∧ wPROpenStamped.closed_at = some 50
    ∧ pr_page_entry "https://pagure.io/" [] 0 10 wPROpenStamped = none :=
  ⟨rfl, rfl, by decide⟩

/-- C6 amended: in the Pagure issues path the window check runs only when
the status is "Closed", so a non-closed issue (with a creation date, not
exclusion-filtered) is always kept; in the Pagure pull-request path a pull
request without a closed timestamp is always kept, but the window test keys
on the presence of `closed_at` rather than on the status, so any pull
request carrying an out-of-window closed timestamp is excluded regardless
of its status. -/
theorem C6_open_never_filtered :
    (∀ (excludes : List String) (since till : Nat) (issue : PagureIssue) (d : Nat),
        issue.status ≠ "Closed" →
        issue.date_created = some d →
        firstMatchingExclude excludes issue.full_url = none →
        issue_page_entry excludes since till issue = some (issue_entry_of issue d))
  ∧ (∀ (pagure_url : String) (excludes : List String) (since till : Nat)
        (pr : PagurePR),
        pr.closed_at = none →
        firstMatchingExclude excludes (pr_full_url pagure_url pr) = none →
        pr_page_entry pagure_url excludes since till pr =
          some { title := pr.title, full_url := pr_full_url pagure_url pr,
                 status := pr.status })
  ∧ (∀ (pagure_url : String) (excludes : List String) (since till : Nat)
        (pr : PagurePR) (ts : Nat),
        pr.closed_at = some ts → (ts < since ∨ till < ts) →
        pr_page_entry pagure_url excludes since till pr = none) := by
  refine ⟨?_, ?_, ?_⟩
  · intro excludes since till issue d hst hdc hex
    simp [issue_page_entry, hdc, hex, hst]
  · intro pagure_url excludes since till pr hca hex
    simp [pr_page_entry, hca, hex]
  · intro pagure_url excludes since till pr ts hca hcond
    by_cases hex : (firstMatchingExclude excludes (pr_full_url pagure_url pr)).isSome <;>
      simp [pr_page_entry, hca, hcond, hex]

/-- Witness for C6 amended: an open issue is kept even when the window
[50, 60] could not contain any of its dates. -/
theorem C6_open_never_filtered_witness :
    issue_page_entry [] 50 60 wIssueOpen = some (issue_entry_of wIssueOpen 3) :=
  C6_open_never_filtered.1 [] 50 60 wIssueOpen 3 (by decide) rfl rfl

/-- Counterexample to C7 as stated: the claim says every query shape on both
platforms skips items whose creation date is absent; but the Pagure
pull-request path never reads the creation date, so a pull request with
`date_created` absent is included in the page records. -/
theorem C7_counterexample :
    wPRNoDate.date_created = none
    ∧ pr_page_entry "https://pagure.io/" [] 0 100 wPRNoDate =
        some { title := "PR without creation date",
               full_url := "https://pagure.io/proj/pull-request/3",
               status := "Open" } :=
  ⟨rfl, by decide⟩

/-- C7 amended: only the Pagure issues pages (current package and snapshot
file) skip an item whose creation date is absent; the Pagure pull-request
path ignores the creation date entirely (its result is unchanged when the
date is erased), and the GitHub queries never request a creation date at
all. -/
theorem C7_date_created_guard :
    (∀ (excludes : List String) (since till : Nat) (issue : PagureIssue),
        issue.date_created = none →
        issue_page_entry excludes since till issue = none)
  ∧ (∀ (since till : Nat) (issue : PagureIssue),
        issue.date_created = none →
        snapshot_page_entry since till issue = none)
  ∧ (∀ (pagure_url : String) (excludes : List String) (since till : Nat)
        (pr : PagurePR),
        pr_page_entry pagure_url excludes since till pr =
          pr_page_entry pagure_url excludes since till
            { pr with date_created := none }) := by
  refine ⟨?_, ?_, ?_⟩
  · intro excludes since till issue h
    simp [issue_page_entry, h]
  · intro since till issue h
    simp [snapshot_page_entry, h]
  · intro pagure_url excludes since till pr
    cases pr
    rfl

/-- Witness for C7 amended: the issue with an absent creation date is
skipped by the Pagure issues normalizer. -/
theorem C7_date_created_guard_witness :
    issue_page_entry [] 0 100 wIssueNoDate = none :=
  C7_date_created_guard.1 [] 0 100 wIssueNoDate rfl

/-- Counterexample to C2 as stated: the claim covers every file version, but
the snapshot `assignee_finder.py` performs no exclusion filtering at all —
an item whose URL starts with a configured exclusion prefix still appears in
the aggregate its pagination loop produces. -/
theorem C2_counterexample :
    firstMatchingExclude ["https://pagure.io/proj"] wIssueOpen.full_url =
      some "https://pagure.io/proj"
    ∧ snapshot_get_pagure_tickets_loop 0 100
        [{ status_code := 200, issues := [wIssueOpen], next_page := none }] =
        some ([{ title := "Open issue",
                 full_url := "https://pagure.io/proj/issue/1",
                 status := "Open" }], 1, 1) :=
  ⟨by decide, by decide⟩

/-- C2 amended: in the current package every normalizer — Pagure issues,
Pagure pull requests, GitHub open and closed queries — drops an item whose
URL starts with a configured exclusion prefix; the match is an exact string
prefix test checked in configured list order and short-circuiting on the
first match (the exclusion scan equals `List.find?` over the configured
list). The snapshot `assignee_finder.py` applies no exclusion filtering. -/
theorem C2_exclusion :
    (∀ (excludes : List String) (url : String),
        firstMatchingExclude excludes url =
          excludes.find? (fun e => str_startswith url e))
  ∧ (∀ (excludes : List String) (since till : Nat) (issue : PagureIssue),
        (firstMatchingExclude excludes issue.full_url).isSome = true →
        issue_page_entry excludes since till issue = none)
  ∧ (∀ (pagure_url : String) (excludes : List String) (since till : Nat)
        (pr : PagurePR),
        (firstMatchingExclude excludes (pr_full_url pagure_url pr)).isSome = true →
        pr_page_entry pagure_url excludes since till pr = none)
  ∧ (∀ (excludes : List String) (n : GHOpenNode),
        (firstMatchingExclude excludes n.url).isSome = true →
        gh_open_entry excludes n = none)
  ∧ (∀ (excludes : List String) (till : Nat) (n : GHClosedNode),
        (firstMatchingExclude excludes n.url).isSome = true →
        gh_closed_entry excludes till n = none) := by
  refine ⟨?_, ?_, ?_, ?_, ?_⟩
  · intro excludes url
    induction excludes with
    | nil => rfl
    | cons e rest ih =>
      by_cases h : str_startswith url e <;>
        simp [firstMatchingExclude, List.find?, h, ih]
  · intro excludes since till issue h
    cases hdc : issue.date_created <;> simp [issue_page_entry, hdc, h]
  · intro pagure_url excludes since till pr h
    simp [pr_page_entry, h]
  · intro excludes n h
    simp [gh_open_entry, h]
  · intro excludes till n h
    by_cases hc : till < n.closedAt <;> simp [gh_closed_entry, h, hc]

/-- Witness for C2 amended: the open issue under the excluded prefix is
dropped by the Pagure issues normalizer. -/
theorem C2_exclusion_witness :
    issue_page_entry ["https://pagure.io/proj"] 0 100 wIssueOpen = none :=
  C2_exclusion.2.1 ["https://pagure.io/proj"] 0 100 wIssueOpen (by decide)

/-- Counterexample to C8 as stated: the claim says no query shape other than
the assigned-tickets one computes `assigned_at`; but the repository-scoped
Pagure closed-issues query runs through the same page normalizer, and its
emitted record carries `assigned = 42`, the timestamp of the notification
comment containing "assigned" (not the issue's creation date 5) — so the
repository-scoped shape computes it too. -/
theorem C8_counterexample :
    get_pagure_tickets_repos [] 0 100 [("https://pagure.io/proj", [wPage2])] =
      [("https://pagure.io/proj",
        { issues := [{ title := "Assigned issue",
                       full_url := "https://pagure.io/proj/issue/4",
                       status := "Open", assigned := 42 }], total := 1 })] := by
  decide

/-- C8 amended: every record emitted by the Pagure issues page normalizer —
which serves both the assigned-tickets query and the repository-scoped
closed-issues query — carries `assigned` equal to the creation date of the
most recent notification comment whose text contains the substring
"assigned" (the comment list is scanned in reverse), falling back to the
item's creation timestamp when no such comment exists; the pull-request and
GitHub shapes build no `assigned` field. -/
theorem C8_assigned_at (excludes : List String) (since till : Nat)
    (issue : PagureIssue) (e : IssueEntry) (d : Nat)
    (hdc : issue.date_created = some d)
    (he : issue_page_entry excludes since till issue = some e) :
    e.assigned = (findAssignedAt issue.comments.reverse).getD d := by
  by_cases hex : (firstMatchingExclude excludes issue.full_url).isSome
  · simp [issue_page_entry, hdc, hex] at he
  · by_cases hst : issue.status = "Closed"
    · cases hca : issue.closed_at with
      | none => simp [issue_page_entry, hdc, hex, hst, hca] at he
      | some ts =>
        by_cases hw : ts < since ∨ till < ts
        · simp [issue_page_entry, hdc, hex, hst, hca, hw] at he
        · simp [issue_page_entry, hdc, hex, hst, hca, hw, Option.some.injEq] at he
          subst he
          rfl
    · simp [issue_page_entry, hdc, hex, hst, Option.some.injEq] at he
      subst he
      rfl

/-- Witness for C8 amended: the record built for the issue whose comment
history holds an assignment notification dated 42 carries `assigned = 42`,
which equals the reverse comment scan's result with fallback 5. -/
theorem C8_assigned_at_witness :
    ({ title := "Assigned issue", full_url := "https://pagure.io/proj/issue/4",
       status := "Open", assigned := 42 } : IssueEntry).assigned =
      (findAssignedAt wIssueAssigned.comments.reverse).getD 5 :=
  C8_assigned_at [] 0 100 wIssueAssigned
    { title := "Assigned issue", full_url := "https://pagure.io/proj/issue/4",
      status := "Open", assigned := 42 } 5 rfl (by decide)

/-- C9: every record produced by the GitHub assigned-tickets query (open and
closed passes) is a dict with exactly the keys `title`, `full_url`,
`status`, carries no `assigned` key, and the `get_tickets` report renderer's
lookup of `assigned` on it fails — the rendering line reaches an uncaught
key-lookup failure. -/
theorem C9_github_records_lack_assigned (excludes : List String) (till : Nat)
    (openResp : GHResponse GHOpenNode) (closedResp : GHResponse GHClosedNode)
    (issue : List (String × String))
    (hmem : issue ∈ (get_github_tickets_user excludes till openResp closedResp).issues) :
    issue.map Prod.fst = ["title", "full_url", "status"]
    ∧ lookupKey issue "assigned" = none
    ∧ get_tickets_github_line issue = none := by
  have hshape : ∃ a b c, issue = github_entry a b c := by
    simp only [get_github_tickets_user] at hmem
    rcases List.mem_append.1 hmem with h | h
    · by_cases hok : respOk openResp.status_code
      · simp only [get_open_github_tickets, if_pos hok] at h
        rcases List.mem_filterMap.1 h with ⟨n, _, hn⟩
        by_cases hx : (firstMatchingExclude excludes n.url).isSome
        · simp [gh_open_entry, hx] at hn
        · simp only [gh_open_entry, if_neg hx, Option.some.injEq] at hn
          exact ⟨n.title, n.url, n.state, hn.symm⟩
      · simp [get_open_github_tickets, hok] at h
    · by_cases hok : respOk closedResp.status_code
      · simp only [get_closed_github_tickets, if_pos hok] at h
        rcases List.mem_filterMap.1 h with ⟨n, _, hn⟩
        by_cases hc : till < n.closedAt
        · simp [gh_closed_entry, hc] at hn
        · by_cases hx : (firstMatchingExclude excludes n.url).isSome
          · simp [gh_closed_entry, hc, hx] at hn
          · simp only [gh_closed_entry, if_neg hc, if_neg hx, Option.some.injEq] at hn
            exact ⟨n.title, n.url, n.state, hn.symm⟩
      · simp [get_closed_github_tickets, hok] at h
  obtain ⟨a, b, c, rfl⟩ := hshape
  exact ⟨rfl, rfl, rfl⟩

/-- Witness for C9: the concrete record produced for the GitHub open-query
node has no `assigned` key and fails the renderer's key lookups. -/
theorem C9_github_records_lack_assigned_witness :
    lookupKey (github_entry "GH issue" "https://github.com/o/r/issues/1" "OPEN")
      "assigned" = none
    ∧ get_tickets_github_line
        (github_entry "GH issue" "https://github.com/o/r/issues/1" "OPEN") = none := by
  have h := C9_github_records_lack_assigned [] 0
    { status_code := 200, reason := "OK", edges := [wOpenNode] }
    { status_code := 200, reason := "OK", edges := [] }
    (github_entry "GH issue" "https://github.com/o/r/issues/1" "OPEN") (by decide)
  exact ⟨h.2.1, h.2.2⟩

/-- C10: in the snapshot `assignee_finder.py`, when the GitHub request for
some user fails (every earlier user's request having succeeded), the
function returns immediately: the output holds exactly the users processed
before the failure, one diagnostic is emitted, and a later per-user lookup
for any user not among those processed — in particular the failing user and
every subsequent one — yields a key-lookup failure. -/
theorem C10_github_early_return (pre : List (String × GHResponse SnapGHNode))
    (user : String) (resp : GHResponse SnapGHNode)
    (post : List (String × GHResponse SnapGHNode))
    (hpre : ∀ p ∈ pre, respOk p.2.status_code = true)
    (hfail : respOk resp.status_code = false) :
    snapshot_get_github_tickets (pre ++ (user, resp) :: post) =
      (pre.map (fun p => (p.1, snapshot_user_data p.2)),
       [(resp.status_code, resp.reason)])
    ∧ ∀ v : String, v ∉ pre.map Prod.fst →
        lookupUser (snapshot_get_github_tickets (pre ++ (user, resp) :: post)).1 v = none := by
  have hmain : snapshot_get_github_tickets (pre ++ (user, resp) :: post) =
      (pre.map (fun p => (p.1, snapshot_user_data p.2)),
       [(resp.status_code, resp.reason)]) := by
    induction pre with
    | nil => simp [snapshot_get_github_tickets, hfail]
    | cons p rest ih =>
      have hok := hpre p (List.mem_cons_self p rest)
      have ih2 := ih fun q hq => hpre q (List.mem_cons_of_mem p hq)
      cases p with
      | mk u r =>
        simp only [List.cons_append, snapshot_get_github_tickets]
        simp only [List.cons_append] at ih2
        simp [hok, ih2]
  refine ⟨hmain, ?_⟩
  intro v hv
  rw [hmain]
  simp only [lookupUser]
  have hfind : (List.map (fun p => (p.1, snapshot_user_data p.2)) pre).find?
      (fun p => p.1 == v) = none := by
    rw [List.find?_eq_none]
    intro x hx
    rcases List.mem_map.1 hx with ⟨q, hq, rfl⟩
    simp only [beq_iff_eq]
    intro hEq
    exact hv (hEq ▸ List.mem_map_of_mem Prod.fst hq)
  rw [hfind]
  rfl

/-- Witness for C10: with alice succeeding, bob failing with HTTP 500 and
carol after bob, the snapshot adapter returns only alice's aggregate plus
one diagnostic, and the report's later lookup of bob fails. -/
theorem C10_github_early_return_witness :
    snapshot_get_github_tickets
      [("alice", { status_code := 200, reason := "OK",
                   edges := [{ title := "Snap issue",
                               url := "https://github.com/o/r/issues/3" }] }),
       ("bob", { status_code := 500, reason := "Internal Server Error", edges := [] }),
       ("carol", { status_code := 200, reason := "OK", edges := [] })] =
      ([("alice", { issues := [("Snap issue", "https://github.com/o/r/issues/3")],
                    total := 1 })],
       [(500, "Internal Server Error")])
    ∧ lookupUser (snapshot_get_github_tickets
        [("alice", { status_code := 200, reason := "OK",
                     edges := [{ title := "Snap issue",
                                 url := "https://github.com/o/r/issues/3" }] }),
         ("bob", { status_code := 500, reason := "Internal Server Error", edges := [] }),
         ("carol", { status_code := 200, reason := "OK", edges := [] })]).1 "bob" = none := by
  have h := C10_github_early_return
    [("alice", { status_code := 200, reason := "OK",
                 edges := [{ title := "Snap issue",
                             url := "https://github.com/o/r/issues/3" }] })]
    "bob" { status_code := 500, reason := "Internal Server Error", edges := [] }
    [("carol", { status_code := 200, reason := "OK", edges := [] })]
    (by decide) (by decide)
  exact ⟨h.1.trans (by decide), h.2 "bob" (by decide)⟩
